import Mathlib

/-!
Verification of the yt-dlts transcription pipeline (src/src/main.rs).

The program is a sequential four-stage pipeline:
  1. `download_audio`  — runs yt-dlp, fails with a download error carrying stderr;
  2. `convert_audio`   — runs ffmpeg, fails with a conversion error carrying stderr;
  3. `transcribe_audio`— reads credential, reads file, POSTs, parses JSON, extracts "text";
  4. sink in `main`    — writes to a file, or prints and copies to the clipboard
                         (clipboard failure panics via unwrap);
  then `main` removes the two fixed-name temporary files.

We embed the program shallowly: every external effect (subprocess, env var,
file read, network send, JSON decode, file create/write/remove, clipboard) is
resolved by a `World` record, and the pipeline additionally emits a trace of
`Event`s so that claims about which effects happen (and in which order) can be
stated.  Machine strings/bytes are `String` / `List Nat`.
-/

/-! ## Bytes and UTF-8 (Rust `String::from_utf8_lossy`, `str::as_bytes`) -/

/-- UTF-8 encoding of a Unicode scalar value (as in Rust's `char` encoding). -/
def utf8EncodeScalar (c : Nat) : List Nat :=
  if c < 0x80 then [c]
  else if c < 0x800 then
    [0xC0 + c / 64, 0x80 + c % 64]
  else if c < 0x10000 then
    [0xE0 + c / 4096, 0x80 + (c / 64) % 64, 0x80 + c % 64]
  else
    [0xF0 + c / 262144, 0x80 + (c / 4096) % 64, 0x80 + (c / 64) % 64, 0x80 + c % 64]

/-- The UTF-8 bytes of a string, as Rust's `str::as_bytes`. -/
def strBytes (s : String) : List Nat :=
  s.data.flatMap (fun c => utf8EncodeScalar c.toNat)

/-- The UTF-8 encoding of U+FFFD REPLACEMENT CHARACTER. -/
def replacementBytes : List Nat := [0xEF, 0xBF, 0xBD]

/-- A UTF-8 continuation byte: `b & 0xC0 == 0x80`. -/
def isCont (b : Nat) : Bool := 0x80 ≤ b && b ≤ 0xBF

/-- Admissible first continuation byte after a three-byte leader `b`
(the ranges Rust's UTF-8 validation uses, excluding overlongs and surrogates). -/
def cont3First (b b1 : Nat) : Bool :=
  if b = 0xE0 then 0xA0 ≤ b1 && b1 ≤ 0xBF
  else if b = 0xED then 0x80 ≤ b1 && b1 ≤ 0x9F
  else isCont b1

/-- Admissible first continuation byte after a four-byte leader `b`. -/
def cont4First (b b1 : Nat) : Bool :=
  if b = 0xF0 then 0x90 ≤ b1 && b1 ≤ 0xBF
  else if b = 0xF4 then 0x80 ≤ b1 && b1 ≤ 0x8F
  else isCont b1

/-- Decode one UTF-8 sequence whose leading byte is `b` and whose following
bytes are `rest`: `(ok, n)` means the sequence occupies the first `n` bytes of
`b :: rest` (always `1 ≤ n ≤ 4`), and `ok` iff those bytes are one valid
scalar encoding.  On `ok = false`, `n` is the length of the maximal valid
prefix of a sequence (Rust's `Utf8Error::error_len` / incomplete-suffix
convention), i.e. how many bytes `from_utf8_lossy` replaces with one U+FFFD. -/
def utf8Step (b : Nat) (rest : List Nat) : Bool × Nat :=
  if b < 0x80 then (true, 1)
  else if b < 0xC2 then (false, 1)
  else if b < 0xE0 then
    match rest with
    | [] => (false, 1)
    | b1 :: _ => if isCont b1 then (true, 2) else (false, 1)
  else if b < 0xF0 then
    match rest with
    | [] => (false, 1)
    | b1 :: rest1 =>
      if cont3First b b1 then
        match rest1 with
        | [] => (false, 2)
        | b2 :: _ => if isCont b2 then (true, 3) else (false, 2)
      else (false, 1)
  else if b < 0xF5 then
    match rest with
    | [] => (false, 1)
    | b1 :: rest1 =>
      if cont4First b b1 then
        match rest1 with
        | [] => (false, 2)
        | b2 :: rest2 =>
          if isCont b2 then
            match rest2 with
            | [] => (false, 3)
            | b3 :: _ => if isCont b3 then (true, 4) else (false, 3)
          else (false, 2)
      else (false, 1)
  else (false, 1)

/-- Every UTF-8 step consumes at least one byte. -/
theorem utf8Step_pos (b : Nat) (rest : List Nat) : 1 ≤ (utf8Step b rest).2 := by
  unfold utf8Step
  (repeat' split) <;> decide

/-- Rust's `String::from_utf8_lossy` on a byte list, returned as the UTF-8
bytes of the resulting string: valid sequences are copied through unchanged,
and each maximal invalid subpart is replaced by one U+FFFD. -/
def utf8Lossy : List Nat → List Nat
  | [] => []
  | b :: rest =>
    (if (utf8Step b rest).1 then (b :: rest).take (utf8Step b rest).2
     else replacementBytes)
      ++ utf8Lossy ((b :: rest).drop (utf8Step b rest).2)
termination_by l => l.length
decreasing_by
  simp only [List.length_drop, List.length_cons]
  exact Nat.sub_lt (Nat.succ_pos _) (utf8Step_pos _ _)

/-- UTF-8 validity of a byte list: every step decodes a valid sequence. -/
def utf8Valid : List Nat → Bool
  | [] => true
  | b :: rest =>
    (utf8Step b rest).1 && utf8Valid ((b :: rest).drop (utf8Step b rest).2)
termination_by l => l.length
decreasing_by
  simp only [List.length_drop, List.length_cons]
  exact Nat.sub_lt (Nat.succ_pos _) (utf8Step_pos _ _)

/-! ## JSON values (serde_json `Value`) -/

/-- A JSON value, as serde_json's `Value`. -/
inductive Json where
  | null
  | bool (b : Bool)
  | num (n : Int)
  | str (s : String)
  | arr (xs : List Json)
  | obj (fields : List (String × Json))

/-- serde_json's `value["key"]` indexing: field lookup on objects,
`Null` for a missing key or a non-object. -/
def jsonIndexStr : Json → String → Json
  | .obj fields, k =>
    match fields.lookup k with
    | some v => v
    | none => .null
  | _, _ => .null

/-- serde_json's `Value::as_str`. -/
def Json.asStr : Json → Option String
  | .str s => some s
  | _ => none

/-! ## Error taxonomy

One constructor per `context`/`bail!` site in main.rs, named after the spec's
error taxonomy (§7): each anyhow context string in the source corresponds to
exactly one of these. -/

inductive PipeError where
  /-- `Command::output` itself failed ("Failed to execute yt-dlp"/"ffmpeg"). -/
  | spawnError (ctx : String)
  /-- `bail!("yt-dlp failed: {}", lossy stderr)` — carries the message bytes. -/
  | downloadError (msg : List Nat)
  /-- `bail!("ffmpeg failed: {}", lossy stderr)` — carries the message bytes. -/
  | conversionError (msg : List Nat)
  /-- `GROQ_API_KEY not set`. -/
  | configError
  /-- File read/write/create/remove failure, with its context string. -/
  | ioError (ctx : String)
  /-- `Failed to send request`. -/
  | requestError
  /-- `Failed to parse JSON response`. -/
  | decodeError
  /-- `Failed to extract transcript from JSON`. -/
  | schemaError
deriving DecidableEq, Repr

/-! ## Worlds: outcomes of external effects -/

/-- The observable outcome of one external command (`std::process::Output`):
its exit status success flag and captured stderr bytes. -/
structure CmdOutput where
  success : Bool
  stderr : List Nat
deriving DecidableEq, Repr

/-- External effects resolved during `transcribe_audio`:
the `GROQ_API_KEY` env var, the file read, the network send,
and the JSON decode of the response body. -/
structure TWorld where
  apiKey : Option String
  readResult : Option (List Nat)
  sendOk : Bool
  jsonBody : Option Json

/-- All external effects one pipeline run can perform.  `ytdlp`/`ffmpeg` are
`none` when the command could not be spawned, otherwise its output.
`audioBytes`/`convBytes` are the file contents the successful tools produce. -/
structure World where
  ytdlp : Option CmdOutput
  ffmpeg : Option CmdOutput
  tw : TWorld
  audioBytes : List Nat
  convBytes : List Nat
  outputArg : Option String
  createOutOk : Bool
  writeOutOk : Bool
  clipboardOk : Bool
  removeAudioOk : Bool
  removeConvertedOk : Bool

/-! ## Events -/

/-- Trace events: one per external effect the program performs, in order.
Fallible filesystem effects carry whether they succeeded. -/
inductive Event where
  | runYtDlp
  | runFfmpeg
  /-- A successful external tool wrote this file. -/
  | extWrite (p : String) (bs : List Nat)
  | readFile (ok : Bool)
  | netSend
  | createFile (p : String) (ok : Bool)
  | writeFile (p : String) (bs : List Nat) (ok : Bool)
  | stdoutLine (s : String)
  | clipboardSet (s : String)
  | removeFile (p : String) (ok : Bool)
deriving DecidableEq, Repr

/-! ## Stage 1 and 2: download_audio, convert_audio (main.rs 24–65) -/

def ytDlpFailedPrefix : List Nat := strBytes "yt-dlp failed: "

def ffmpegFailedPrefix : List Nat := strBytes "ffmpeg failed: "

/-- main.rs 24–36: run yt-dlp; spawn failure is its own error, a non-zero
exit bails with "yt-dlp failed: " followed by the lossy-decoded stderr. -/
def download_audio (r : Option CmdOutput) : Except PipeError Unit :=
  match r with
  | none => .error (.spawnError "Failed to execute yt-dlp")
  | some o =>
    if o.success then .ok ()
    else .error (.downloadError (ytDlpFailedPrefix ++ utf8Lossy o.stderr))

/-- main.rs 38–65: run ffmpeg; same shape as `download_audio`. -/
def convert_audio (r : Option CmdOutput) : Except PipeError Unit :=
  match r with
  | none => .error (.spawnError "Failed to execute ffmpeg")
  | some o =>
    if o.success then .ok ()
    else .error (.conversionError (ffmpegFailedPrefix ++ utf8Lossy o.stderr))

/-! ## Stage 3: transcribe_audio (main.rs 67–100) -/

/-- main.rs 67–100: read the credential, read the file, send the multipart
request, decode the JSON body, extract `json["text"].as_str()`. -/
def transcribe_audio (tw : TWorld) : Except PipeError String :=
  match tw.apiKey with
  | none => .error .configError
  | some _ =>
    match tw.readResult with
    | none => .error (.ioError "Failed to read audio file")
    | some _ =>
      if tw.sendOk then
        match tw.jsonBody with
        | none => .error .decodeError
        | some j =>
          match (jsonIndexStr j "text").asStr with
          | some t => .ok t
          | none => .error .schemaError
      else .error .requestError

/-- The effects `transcribe_audio` performs, in order: nothing before the
credential check; the file read; then the network send (attempted exactly
when the read succeeded). -/
def transcribeEvents (tw : TWorld) : List Event :=
  match tw.apiKey with
  | none => []
  | some _ =>
    match tw.readResult with
    | none => [.readFile false]
    | some _ => [.readFile true, .netSend]

example : transcribe_audio ⟨some "k", some [1, 2], true,
    some (.obj [("text", .str "hello world")])⟩ = .ok "hello world" := rfl

example : transcribe_audio ⟨some "k", some [1, 2], true,
    some (.obj [("error", .str "bad request")])⟩ = .error .schemaError := rfl

example : transcribe_audio ⟨none, some [1], true, some .null⟩
    = .error .configError := rfl

/-! ## The pipeline driver: main (main.rs 102–148) -/

/-- main.rs 107: the fixed name of the downloaded temporary file. -/
def audioFileName : String := "temp_audio.webm"

/-- main.rs 111: the fixed name of the transcoded temporary file. -/
def convertedFileName : String := "converted_audio.webm"

/-- How a run of `main` ends: returns `Ok(())`, returns an `Err`, or panics
(the clipboard code path unwraps). -/
inductive Outcome where
  | ok
  | err (e : PipeError)
  | panicked
deriving DecidableEq, Repr

/-- main.rs 139–147: remove both temporary files, intermediate audio first,
propagating the first failure as an IO error. -/
def cleanup (w : World) (ev : List Event) : Outcome × List Event :=
  if w.removeAudioOk then
    if w.removeConvertedOk then
      (.ok, ev ++ [.removeFile audioFileName true, .removeFile convertedFileName true])
    else
      (.err (.ioError "Failed to remove converted audio file"),
       ev ++ [.removeFile audioFileName true, .removeFile convertedFileName false])
  else
    (.err (.ioError "Failed to remove temporary audio file"),
     ev ++ [.removeFile audioFileName false])

/-- main.rs 102–148: run the four stages strictly in order with `?`
propagation, then clean up.  The clipboard block uses `unwrap()`, so a
clipboard failure panics rather than returning an error. -/
def runMain (w : World) : Outcome × List Event :=
  match download_audio w.ytdlp with
  | .error e => (.err e, [.runYtDlp])
  | .ok () =>
    let evD : List Event := [.runYtDlp, .extWrite audioFileName w.audioBytes]
    match convert_audio w.ffmpeg with
    | .error e => (.err e, evD ++ [.runFfmpeg])
    | .ok () =>
      let evC := evD ++ [.runFfmpeg, .extWrite convertedFileName w.convBytes]
      match transcribe_audio w.tw with
      | .error e => (.err e, evC ++ transcribeEvents w.tw)
      | .ok t =>
        let evT := evC ++ transcribeEvents w.tw
        match w.outputArg with
        | some p =>
          if w.createOutOk then
            if w.writeOutOk then
              cleanup w (evT ++
                [.createFile p true, .writeFile p (strBytes t) true,
                 .stdoutLine ("Transcription completed. Output saved to " ++ p)])
            else
              (.err (.ioError "Failed to write transcript to file"),
               evT ++ [.createFile p true, .writeFile p (strBytes t) false])
          else
            (.err (.ioError "Failed to create output file"),
             evT ++ [.createFile p false])
        | none =>
          let evP := evT ++ [.stdoutLine "Transcription:", .stdoutLine t]
          if w.clipboardOk then
            cleanup w (evP ++ [.clipboardSet t,
              .stdoutLine "\nThe transcription has been copied to your clipboard."])
          else
            (.panicked, evP)

/-! ## Stage-success predicates -/

/-- Whether an `Except` is a success. -/
def exceptIsOk {ε α : Type} : Except ε α → Bool
  | .ok _ => true
  | .error _ => false

/-- A command both spawned and exited successfully. -/
def cmdOk : Option CmdOutput → Bool
  | some o => o.success
  | none => false

/-- The sink stage succeeds: with an output path, create and write succeed;
without one, the clipboard calls do not panic. -/
def sinkOk (w : World) : Bool :=
  match w.outputArg with
  | some _ => w.createOutOk && w.writeOutOk
  | none => w.clipboardOk

/-- All four stages (fetch, convert, transcribe, sink) succeed. -/
def stagesOk (w : World) : Bool :=
  cmdOk w.ytdlp && cmdOk w.ffmpeg && exceptIsOk (transcribe_audio w.tw) && sinkOk w

/-- Whether an `Outcome` is an error returned through the `Result` channel. -/
def Outcome.isErr : Outcome → Bool
  | .err _ => true
  | _ => false

/-! ## An abstract filesystem, driven by the event trace -/

/-- A filesystem: each path either absent or holding bytes. -/
def FS : Type := String → Option (List Nat)

/-- The effect of one successful event on the filesystem: an external tool
write or `File::create` set contents (create truncates), `write_all` appends,
`remove_file` deletes.  Failed operations and non-filesystem events leave the
state unchanged. -/
def applyEvent (fs : FS) : Event → FS
  | .extWrite p bs => fun q => if q = p then some bs else fs q
  | .createFile p true => fun q => if q = p then some [] else fs q
  | .writeFile p bs true => fun q => if q = p then some ((fs p).getD [] ++ bs) else fs q
  | .removeFile p true => fun q => if q = p then none else fs q
  | _ => fs

/-- Run a trace of events over a filesystem. -/
def runFS (fs : FS) (evs : List Event) : FS :=
  evs.foldl applyEvent fs

/-- A sample world in which every effect succeeds and the API returns
`{"text": "hello world"}`, with an output path. -/
def okWorld : World :=
  { ytdlp := some ⟨true, []⟩
    ffmpeg := some ⟨true, []⟩
    tw := ⟨some "key", some [10, 20], true, some (.obj [("text", .str "hello world")])⟩
    audioBytes := [1, 2, 3]
    convBytes := [4, 5]
    outputArg := some "out.txt"
    createOutOk := true
    writeOutOk := true
    clipboardOk := true
    removeAudioOk := true
    removeConvertedOk := true }

example : (runMain okWorld).1 = .ok := rfl

example : runFS (fun _ => none) (runMain okWorld).2 "out.txt"
    = some (strBytes "hello world") := by decide

example : runFS (fun _ => none) (runMain okWorld).2 audioFileName = none := by decide

example : stagesOk okWorld = true := rfl

/-! ## Helper lemmas -/

/-- On valid UTF-8 input, lossy decoding copies the bytes through unchanged. -/
theorem utf8Lossy_of_valid : ∀ l, utf8Valid l = true → utf8Lossy l = l := by
  intro l
  induction l using utf8Lossy.induct with
  | case1 => intro _; simp [utf8Lossy]
  | case2 b rest ih =>
    intro h
    simp only [utf8Valid, Bool.and_eq_true] at h
    obtain ⟨hok, hrest⟩ := h
    simp only [utf8Lossy, hok, if_true]
    rw [ih hrest, List.take_append_drop]

/-- A spawned-and-successful command passes `download_audio`. -/
theorem download_audio_ok (r : Option CmdOutput) (h : cmdOk r = true) :
    download_audio r = .ok () := by
  rcases r with _ | o
  · simp [cmdOk] at h
  · simp_all [cmdOk, download_audio]

/-- A spawned-and-successful command passes `convert_audio`. -/
theorem convert_audio_ok (r : Option CmdOutput) (h : cmdOk r = true) :
    convert_audio r = .ok () := by
  rcases r with _ | o
  · simp [cmdOk] at h
  · simp_all [cmdOk, convert_audio]

/-- A successful `Except` computation yields some value. -/
theorem exceptIsOk_exists {ε α : Type} (r : Except ε α) (h : exceptIsOk r = true) :
    ∃ t, r = .ok t := by
  cases r with
  | error e => simp [exceptIsOk] at h
  | ok t => exact ⟨t, rfl⟩

/-- Unpack `stagesOk` into the success of each stage. -/
theorem stagesOk_spec (w : World) (h : stagesOk w = true) :
    download_audio w.ytdlp = .ok () ∧ convert_audio w.ffmpeg = .ok ()
    ∧ (∃ t, transcribe_audio w.tw = .ok t) ∧ sinkOk w = true := by
  simp only [stagesOk, Bool.and_eq_true] at h
  obtain ⟨⟨⟨h1, h2⟩, h3⟩, h4⟩ := h
  exact ⟨download_audio_ok _ h1, convert_audio_ok _ h2, exceptIsOk_exists _ h3, h4⟩

/-- The transcriber's own effects contain no file removal. -/
theorem removeFile_not_mem_transcribeEvents (tw : TWorld) (p : String) (b : Bool) :
    Event.removeFile p b ∉ transcribeEvents tw := by
  unfold transcribeEvents
  (repeat' split) <;> simp

/-- The transcriber's effects never change the filesystem. -/
theorem runFS_transcribeEvents (fs : FS) (tw : TWorld) :
    runFS fs (transcribeEvents tw) = fs := by
  unfold transcribeEvents
  (repeat' split) <;> rfl

/-! ## The claims -/

/-- C1: for every run in which the downloader exits with a non-zero status,
the pipeline fails with the download error (carrying the tool's message) and
the transcoder is never invoked: no `runFfmpeg` event occurs. -/
theorem c1_download_failure_fail_fast (w : World) (o : CmdOutput)
    (hyt : w.ytdlp = some o) (hfail : o.success = false) :
    (runMain w).1 = .err (.downloadError (ytDlpFailedPrefix ++ utf8Lossy o.stderr))
    ∧ Event.runFfmpeg ∉ (runMain w).2
    ∧ (runMain w).2 = [.runYtDlp] := by
  simp [runMain, download_audio, hyt, hfail]

def dlFailWorld : World :=
  { ytdlp := some ⟨false, [102]⟩
    ffmpeg := some ⟨true, []⟩
    tw := ⟨some "key", some [10], true, some (.obj [("text", .str "hi")])⟩
    audioBytes := []
    convBytes := []
    outputArg := none
    createOutOk := true
    writeOutOk := true
    clipboardOk := true
    removeAudioOk := true
    removeConvertedOk := true }

/-- Witness for C1 at a concrete world whose downloader exits non-zero. -/
theorem c1_witness :
    (runMain dlFailWorld).1 = .err (.downloadError (ytDlpFailedPrefix ++ utf8Lossy [102]))
    ∧ Event.runFfmpeg ∉ (runMain dlFailWorld).2
    ∧ (runMain dlFailWorld).2 = [.runYtDlp] :=
  c1_download_failure_fail_fast dlFailWorld ⟨false, [102]⟩ rfl rfl

/-- C2: for every successful response whose JSON body has a string field
`"text"` with value `t`, the transcriber returns exactly `t`, unchanged. -/
theorem c2_transcript_verbatim (tw : TWorld) (k : String) (bs : List Nat)
    (j : Json) (t : String)
    (hk : tw.apiKey = some k) (hr : tw.readResult = some bs) (hs : tw.sendOk = true)
    (hj : tw.jsonBody = some j) (ht : jsonIndexStr j "text" = .str t) :
    transcribe_audio tw = .ok t := by
  simp [transcribe_audio, hk, hr, hs, hj, ht, Json.asStr]

/-- Witness for C2: a mocked endpoint returning `{"text": "hello world"}`
yields exactly `"hello world"`. -/
theorem c2_witness :
    transcribe_audio ⟨some "key", some [10, 20], true,
      some (.obj [("text", .str "hello world")])⟩ = .ok "hello world" :=
  c2_transcript_verbatim _ "key" [10, 20] _ "hello world" rfl rfl rfl rfl rfl

/-- C4: for every response that parses as JSON but lacks a string `"text"`
field (missing, or present but not a string, or a non-object), the
transcriber fails with the schema error. -/
theorem c4_schema_error (tw : TWorld) (k : String) (bs : List Nat) (j : Json)
    (hk : tw.apiKey = some k) (hr : tw.readResult = some bs) (hs : tw.sendOk = true)
    (hj : tw.jsonBody = some j) (ht : (jsonIndexStr j "text").asStr = none) :
    transcribe_audio tw = .error .schemaError := by
  simp [transcribe_audio, hk, hr, hs, hj, ht]

/-- Witness for C4: a mocked endpoint returning `{"error": "bad request"}`
fails with the schema error. -/
theorem c4_witness :
    transcribe_audio ⟨some "key", some [10], true,
      some (.obj [("error", .str "bad request")])⟩ = .error .schemaError :=
  c4_schema_error _ "key" [10] (.obj [("error", .str "bad request")]) rfl rfl rfl rfl rfl

/-- C9: when the credential is unset the transcriber fails with the
configuration error even when the file read would also fail, and it performs
no effect at all (no read, no send): the credential check comes first. -/
theorem c9_config_error_precedes_io (tw : TWorld)
    (hk : tw.apiKey = none) (hr : tw.readResult = none) :
    transcribe_audio tw = .error .configError
    ∧ transcribe_audio tw ≠ .error (.ioError "Failed to read audio file")
    ∧ transcribeEvents tw = [] := by
  refine ⟨by simp [transcribe_audio, hk], ?_, by simp [transcribeEvents, hk]⟩
  simp [transcribe_audio, hk]

/-- Witness for C9 at a concrete world with no key and a failing read. -/
theorem c9_witness :
    transcribe_audio ⟨none, none, true, none⟩ = .error .configError
    ∧ transcribe_audio ⟨none, none, true, none⟩
        ≠ .error (.ioError "Failed to read audio file")
    ∧ transcribeEvents ⟨none, none, true, none⟩ = [] :=
  c9_config_error_precedes_io ⟨none, none, true, none⟩ rfl rfl

/-- C3: when the credential environment variable is unset the transcriber
fails with the configuration error, and the whole run issues zero network
requests (no `netSend` event anywhere in the trace). -/
theorem c3_no_key_no_network (w : World) (hk : w.tw.apiKey = none) :
    transcribe_audio w.tw = .error .configError
    ∧ (runMain w).2.count .netSend = 0 := by
  have he : transcribe_audio w.tw = .error .configError := by
    simp [transcribe_audio, hk]
  have htev : transcribeEvents w.tw = [] := by
    simp [transcribeEvents, hk]
  refine ⟨he, List.count_eq_zero.mpr ?_⟩
  unfold runMain
  (repeat' split) <;> simp_all [cleanup]

def noKeyWorld : World :=
  { ytdlp := some ⟨true, []⟩
    ffmpeg := some ⟨true, []⟩
    tw := ⟨none, some [1], true, none⟩
    audioBytes := [1]
    convBytes := [2]
    outputArg := none
    createOutOk := true
    writeOutOk := true
    clipboardOk := true
    removeAudioOk := true
    removeConvertedOk := true }

/-- Witness for C3 at a concrete world with the credential unset. -/
theorem c3_witness :
    transcribe_audio noKeyWorld.tw = .error .configError
    ∧ (runMain noKeyWorld).2.count .netSend = 0 :=
  c3_no_key_no_network noKeyWorld rfl

/-- A world in which every stage up to the sink succeeds, no output path is
given, and clipboard access fails. -/
def clipFailWorld : World :=
  { ytdlp := some ⟨true, []⟩
    ffmpeg := some ⟨true, []⟩
    tw := ⟨some "key", some [10, 20], true, some (.obj [("text", .str "hello world")])⟩
    audioBytes := [1, 2, 3]
    convBytes := [4, 5]
    outputArg := none
    createOutOk := true
    writeOutOk := true
    clipboardOk := false
    removeAudioOk := true
    removeConvertedOk := true }

/-- Counterexample to C6 as stated: when clipboard access fails, the run does
not surface any recoverable error through the `Result` channel — it panics
(the source unwraps both clipboard calls), so no `ClipboardError` value ever
reaches the top level. -/
theorem c6_counterexample :
    (runMain clipFailWorld).1 = .panicked
    ∧ Outcome.isErr (runMain clipFailWorld).1 = false := by decide

/-- C6 (amended): for every run without an output path in which the stages
through transcription succeed and clipboard access fails, the run fails — but
by panicking at the unwrapped clipboard calls, not by propagating an error
value through the program's error channel. -/
theorem c6_amended_clipboard_failure_panics (w : World)
    (hd : cmdOk w.ytdlp = true) (hf : cmdOk w.ffmpeg = true)
    (ht : exceptIsOk (transcribe_audio w.tw) = true)
    (hout : w.outputArg = none) (hcl : w.clipboardOk = false) :
    (runMain w).1 = .panicked ∧ Outcome.isErr (runMain w).1 = false := by
  obtain ⟨t, ht'⟩ := exceptIsOk_exists _ ht
  simp [runMain, download_audio_ok _ hd, convert_audio_ok _ hf, ht', hout, hcl,
    Outcome.isErr]

/-- Witness for the amended C6 at the same concrete world. -/
theorem c6_amended_witness :
    (runMain clipFailWorld).1 = .panicked
    ∧ Outcome.isErr (runMain clipFailWorld).1 = false :=
  c6_amended_clipboard_failure_panics clipFailWorld rfl rfl rfl rfl rfl

/-- Counterexample to C8 as stated: with stderr the single (non-UTF-8) byte
`0xFF`, the download error's message is `"yt-dlp failed: "` followed by
U+FFFD — it does not equal the stderr bytes, and does not even contain the
original byte `0xFF`. -/
theorem c8_counterexample :
    download_audio (some ⟨false, [0xFF]⟩)
      = .error (.downloadError (ytDlpFailedPrefix ++ replacementBytes))
    ∧ ytDlpFailedPrefix ++ replacementBytes ≠ [0xFF]
    ∧ (0xFF : Nat) ∉ ytDlpFailedPrefix ++ replacementBytes := by
  refine ⟨?_, by decide, by decide⟩
  simp [download_audio, utf8Lossy, utf8Step]

/-- C8 (amended): a non-zero downloader exit yields the download error whose
message is the fixed prefix `"yt-dlp failed: "` followed by the lossy UTF-8
decoding of the captured stderr; when the stderr bytes are valid UTF-8 they
are carried verbatim after that prefix, while invalid byte sequences are
replaced by U+FFFD. -/
theorem c8_amended_stderr_after_prefix (o : CmdOutput) (hfail : o.success = false)
    (hv : utf8Valid o.stderr = true) :
    download_audio (some o) = .error (.downloadError (ytDlpFailedPrefix ++ o.stderr)) := by
  simp [download_audio, hfail, utf8Lossy_of_valid _ hv]

/-- Witness for the amended C8: valid-UTF-8 stderr `"boom"` is carried
verbatim after the prefix. -/
theorem c8_amended_witness :
    download_audio (some ⟨false, [98, 111, 111, 109]⟩)
      = .error (.downloadError (ytDlpFailedPrefix ++ [98, 111, 111, 109])) :=
  c8_amended_stderr_after_prefix ⟨false, [98, 111, 111, 109]⟩ rfl
    (by simp [utf8Valid, utf8Step])

/-- `download_audio` succeeds only on a spawned, zero-exit command. -/
theorem cmdOk_of_download (r : Option CmdOutput) (h : download_audio r = .ok ()) :
    cmdOk r = true := by
  rcases r with _ | o
  · simp [download_audio] at h
  · by_cases ho : o.success <;> simp_all [download_audio, cmdOk]

/-- `convert_audio` succeeds only on a spawned, zero-exit command. -/
theorem cmdOk_of_convert (r : Option CmdOutput) (h : convert_audio r = .ok ()) :
    cmdOk r = true := by
  rcases r with _ | o
  · simp [convert_audio] at h
  · by_cases ho : o.success <;> simp_all [convert_audio, cmdOk]

/-- Folding the transcriber's events over a filesystem changes nothing
(stated on `List.foldl` for direct use while computing `runFS`). -/
theorem foldl_applyEvent_transcribeEvents (fs : FS) (tw : TWorld) :
    List.foldl applyEvent fs (transcribeEvents tw) = fs :=
  runFS_transcribeEvents fs tw

/-- A fully successful world whose output path collides with the fixed
temporary name `temp_audio.webm`. -/
def collideWorld : World := { okWorld with outputArg := some audioFileName }

/-- Counterexample to C5 as stated: a fully successful run whose output path
is the fixed temporary name `temp_audio.webm` ends with the output file
deleted by cleanup — afterwards it does not contain the transcript (it does
not exist at all). -/
theorem c5_counterexample :
    (runMain collideWorld).1 = .ok
    ∧ transcribe_audio collideWorld.tw = .ok "hello world"
    ∧ runFS (fun _ => none) (runMain collideWorld).2 audioFileName = none :=
  ⟨by decide, rfl, by decide⟩

/-- C5 (amended): for every fully successful run whose output path differs
from the two fixed temporary names, the output file afterwards contains
exactly the transcript bytes and both temporary files no longer exist. -/
theorem c5_amended_output_file (w : World) (p t : String) (fs0 : FS)
    (hout : w.outputArg = some p)
    (hp1 : p ≠ audioFileName) (hp2 : p ≠ convertedFileName)
    (hst : stagesOk w = true)
    (hra : w.removeAudioOk = true) (hrc : w.removeConvertedOk = true)
    (ht : transcribe_audio w.tw = .ok t) :
    (runMain w).1 = .ok
    ∧ runFS fs0 (runMain w).2 p = some (strBytes t)
    ∧ runFS fs0 (runMain w).2 audioFileName = none
    ∧ runFS fs0 (runMain w).2 convertedFileName = none := by
  obtain ⟨hd, hc, _, hs⟩ := stagesOk_spec w hst
  simp only [sinkOk, hout, Bool.and_eq_true] at hs
  obtain ⟨hcr, hwr⟩ := hs
  have hp1' : audioFileName ≠ p := Ne.symm hp1
  have hp2' : convertedFileName ≠ p := Ne.symm hp2
  simp only [audioFileName, convertedFileName] at hp1 hp2 hp1' hp2'
  simp [runMain, hd, hc, ht, hout, hcr, hwr, cleanup, hra, hrc,
    runFS, applyEvent, foldl_applyEvent_transcribeEvents,
    hp1, hp2, hp1', hp2', audioFileName, convertedFileName]

/-- Witness for the amended C5 at a concrete fully-successful world with
output path `out.txt`. -/
theorem c5_amended_witness :
    (runMain okWorld).1 = .ok
    ∧ runFS (fun _ => none) (runMain okWorld).2 "out.txt" = some (strBytes "hello world")
    ∧ runFS (fun _ => none) (runMain okWorld).2 audioFileName = none
    ∧ runFS (fun _ => none) (runMain okWorld).2 convertedFileName = none :=
  c5_amended_output_file okWorld "out.txt" "hello world" (fun _ => none) rfl
    (by decide) (by decide) (by decide) rfl rfl rfl

/-- C7: file removal is attempted only after all four stages have succeeded
(so no stage failure — including the clipboard panic — ever attempts a
deletion), and on the success path a failed deletion is surfaced as the
corresponding IO error rather than suppressed. -/
theorem c7_cleanup_gated_on_success (w : World) :
    ((∃ p b, Event.removeFile p b ∈ (runMain w).2) → stagesOk w = true)
    ∧ (stagesOk w = true → w.removeAudioOk = false →
        (runMain w).1 = .err (.ioError "Failed to remove temporary audio file"))
    ∧ (stagesOk w = true → w.removeAudioOk = true → w.removeConvertedOk = false →
        (runMain w).1 = .err (.ioError "Failed to remove converted audio file")) := by
  refine ⟨?_, ?_, ?_⟩
  · rintro ⟨p, b, hmem⟩
    unfold runMain at hmem
    repeat' split at hmem
    all_goals
      first
      | (simp_all [removeFile_not_mem_transcribeEvents]
         done)
      | (simp only [stagesOk, Bool.and_eq_true]
         refine ⟨⟨⟨cmdOk_of_download _ ?_, cmdOk_of_convert _ ?_⟩, ?_⟩, ?_⟩ <;>
           first
           | assumption
           | (simp_all [exceptIsOk, sinkOk]
              done))
  · intro hst hra
    obtain ⟨hd, hc, ⟨t, ht⟩, hs⟩ := stagesOk_spec w hst
    rcases hout : w.outputArg with _ | p <;>
      simp only [sinkOk, hout, Bool.and_eq_true] at hs
    · simp [runMain, hd, hc, ht, hout, hs, cleanup, hra]
    · obtain ⟨hcr, hwr⟩ := hs
      simp [runMain, hd, hc, ht, hout, hcr, hwr, cleanup, hra]
  · intro hst hra hrc
    obtain ⟨hd, hc, ⟨t, ht⟩, hs⟩ := stagesOk_spec w hst
    rcases hout : w.outputArg with _ | p <;>
      simp only [sinkOk, hout, Bool.and_eq_true] at hs
    · simp [runMain, hd, hc, ht, hout, hs, cleanup, hra, hrc]
    · obtain ⟨hcr, hwr⟩ := hs
      simp [runMain, hd, hc, ht, hout, hcr, hwr, cleanup, hra, hrc]

/-- A fully successful world except that removing the first temporary file
fails. -/
def rmFailWorld : World := { okWorld with removeAudioOk := false }

/-- Witness for C7 at a concrete world: the success-path deletion failure is
surfaced as the corresponding IO error. -/
theorem c7_witness :
    (runMain rmFailWorld).1 = .err (.ioError "Failed to remove temporary audio file") :=
  (c7_cleanup_gated_on_success rmFailWorld).2.1 (by decide) rfl

/-- C10: cleanup attempts the intermediate audio file first; when that
removal fails the run returns its IO error, never attempts to remove the
transcoded file, and the transcoded file is still on disk afterwards. -/
theorem c10_audio_remove_failure_leaves_converted (w : World) (fs0 : FS)
    (hst : stagesOk w = true) (hra : w.removeAudioOk = false) :
    (runMain w).1 = .err (.ioError "Failed to remove temporary audio file")
    ∧ Event.removeFile audioFileName false ∈ (runMain w).2
    ∧ (∀ b, Event.removeFile convertedFileName b ∉ (runMain w).2)
    ∧ runFS fs0 (runMain w).2 convertedFileName ≠ none := by
  obtain ⟨hd, hc, ⟨t, ht⟩, hs⟩ := stagesOk_spec w hst
  rcases hout : w.outputArg with _ | p <;>
    simp only [sinkOk, hout, Bool.and_eq_true] at hs
  · simp [runMain, hd, hc, ht, hout, hs, cleanup, hra, runFS, applyEvent,
      foldl_applyEvent_transcribeEvents, removeFile_not_mem_transcribeEvents,
      audioFileName, convertedFileName]
  · obtain ⟨hcr, hwr⟩ := hs
    by_cases hp : p = convertedFileName
    · subst hp
      simp [runMain, hd, hc, ht, hout, hcr, hwr, cleanup, hra, runFS, applyEvent,
        foldl_applyEvent_transcribeEvents, removeFile_not_mem_transcribeEvents,
        audioFileName, convertedFileName]
    · have hp' : convertedFileName ≠ p := Ne.symm hp
      simp only [convertedFileName] at hp hp'
      simp [runMain, hd, hc, ht, hout, hcr, hwr, cleanup, hra, runFS, applyEvent,
        foldl_applyEvent_transcribeEvents, removeFile_not_mem_transcribeEvents,
        hp, hp', audioFileName, convertedFileName]

/-- Witness for C10 at a concrete world whose first removal fails. -/
theorem c10_witness :
    (runMain rmFailWorld).1 = .err (.ioError "Failed to remove temporary audio file")
    ∧ Event.removeFile audioFileName false ∈ (runMain rmFailWorld).2
    ∧ Event.removeFile convertedFileName true ∉ (runMain rmFailWorld).2
    ∧ Event.removeFile convertedFileName false ∉ (runMain rmFailWorld).2
    ∧ runFS (fun _ => none) (runMain rmFailWorld).2 convertedFileName ≠ none :=
  ⟨(c10_audio_remove_failure_leaves_converted rmFailWorld (fun _ => none)
      (by decide) rfl).1,
   (c10_audio_remove_failure_leaves_converted rmFailWorld (fun _ => none)
      (by decide) rfl).2.1,
   (c10_audio_remove_failure_leaves_converted rmFailWorld (fun _ => none)
      (by decide) rfl).2.2.1 true,
   (c10_audio_remove_failure_leaves_converted rmFailWorld (fun _ => none)
      (by decide) rfl).2.2.1 false,
   (c10_audio_remove_failure_leaves_converted rmFailWorld (fun _ => none)
      (by decide) rfl).2.2.2⟩
